import Mathlib

/-! Image quota evaluator registries (pkg/quota/image/registry.go).

A shallow embedding of the two registry builders `NewReplenishmentEvaluators`
and `NewReplenishmentEvaluatorsForAdmission`, of the alias table
`legacyObjectCountAliases` and of the decorator `evaluatorForLegacyResource`.

Modelling choices.

* A value of the Go interface `quota.Evaluator` is a tagged union over the
  dynamic types that occur in the package, plus `other` for any further
  implementation, given by its method table.
* The method bodies of the image-stream-tag and image-stream-import evaluators
  live in sibling files; they are parameters (`Collaborators`).
* A Go function value that may be `nil` is an `Option`.
* `range` over a Go map visits every entry once in an unspecified order; the
  builders take that order as an explicit argument, constrained by
  `RangeOrder`.
-/

namespace ImageQuota

/-! ## Identities -/

/-- The pair (API group, resource) of `schema.GroupResource`. -/
structure GroupResource where
  Group : String
  Resource : String
deriving DecidableEq, Repr

/-- The pair (API group, version) of `schema.GroupVersion`. -/
structure GroupVersion where
  Group : String
  Version : String
deriving DecidableEq, Repr

/-- The triple of `schema.GroupVersionResource`. -/
structure GroupVersionResource where
  Group : String
  Version : String
  Resource : String
deriving DecidableEq, Repr

/-- Modelled from the spec: `schema.GroupVersion.WithResource` is declared in the
apimachinery library, outside src/; it qualifies a resource name with the
group and version. -/
def GroupVersion.WithResource (gv : GroupVersion) (resource : String) :
    GroupVersionResource :=
  { Group := gv.Group, Version := gv.Version, Resource := resource }

/-- Modelled from the spec: `schema.GroupVersionResource.GroupResource` is declared
in the apimachinery library, outside src/; it forgets the version and keeps the
(API group, resource kind) pair that the spec calls the resource identity. -/
def GroupVersionResource.GroupResource (gvr : GroupVersionResource) :
    ImageQuota.GroupResource :=
  { Group := gvr.Group, Resource := gvr.Resource }

/-- The type `corev1.ResourceName`. -/
abbrev ResourceName := String

/-- The type `corev1.ResourceList`, a finite map from resource name to quantity,
kept as an association list. -/
abbrev ResourceList := List (ResourceName × Int)

namespace imagev1

/-- Modelled from the spec: the constant `imagev1.GroupVersion` is declared in the
image API package, outside src/; the current identities are group-qualified
with `image.openshift.io`, at version `v1`. -/
def GroupVersion : ImageQuota.GroupVersion :=
  { Group := "image.openshift.io", Version := "v1" }

/-- Modelled from the spec: the constant `imagev1.ResourceImageStreams` is declared
in the image API package, outside src/; the alias name under which image
streams are counted is "openshift.io/imagestreams". -/
def ResourceImageStreams : ResourceName := "openshift.io/imagestreams"

end imagev1

namespace legacy

/-- Modelled from the spec: `legacy.Resource` is declared in pkg/api/legacy, outside
src/; the legacy identity of a resource is its ungrouped form, the resource
name with the empty API group. -/
def Resource (resource : String) : GroupResource :=
  { Group := "", Resource := resource }

end legacy

/-! ## Evaluators -/

/-- The method table of one `quota.Evaluator` implementation, restricted to the
four operations of the evaluator contract. A quota rule is given by the list
of resource names it tracks. -/
structure Methods (Obj Err : Type) where
  GroupResource : ImageQuota.GroupResource
  Handles : Obj → Bool
  Usage : Obj → Except Err ResourceList
  Matches : List ResourceName → Obj → Except Err Bool

/-- The closure returned by `generic.ListResourceUsingListerFunc`, represented by
the two values it captures: the lister-factory function (`none` for Go's `nil`)
and the group-version-resource it will ask that function for. -/
structure ListFuncByNamespace (F : Type) where
  l : Option F
  resource : GroupVersionResource

/-- A value of the interface `quota.Evaluator`, by dynamic type. -/
inductive Evaluator (Obj Err L C F : Type) where
  | imageStreamTagEvaluator (store : L) (istGetter : C)
  | imageStreamImportEvaluator (store : L)
  | objectCountEvaluator (groupResource : GroupResource)
      (listFuncByNamespace : ListFuncByNamespace F) (aliasName : ResourceName)
  | evaluatorForLegacyResource (Evaluator : Evaluator Obj Err L C F)
      (LegacyGroupResource : GroupResource)
  | other (m : Methods Obj Err)

/-- The behaviour of the evaluators whose method bodies are not in registry.go:
the method tables of the two specialised evaluators, as functions of the
lister and client they were built from, and the two operations of the generic
object-count evaluator about which the spec is silent. -/
structure Collaborators (Obj Err L C F : Type) where
  imageStreamTag : L → C → Methods Obj Err
  imageStreamImport : L → Methods Obj Err
  objectCountHandles : GroupResource → ListFuncByNamespace F → ResourceName → Obj → Bool
  objectCountMatches : GroupResource → ListFuncByNamespace F → ResourceName →
    List ResourceName → Obj → Except Err Bool

/-- The informer `imagev1informer.ImageStreamInformer`, of which the builders use
the `Lister()` method only. -/
structure ImageStreamInformer (L : Type) where
  Lister : L

variable {Obj Err L C F : Type}

/-- The constructor `NewImageStreamTagEvaluator` of the sibling file: the
evaluator built from a lister and a client. -/
def NewImageStreamTagEvaluator (store : L) (istGetter : C) : Evaluator Obj Err L C F :=
  Evaluator.imageStreamTagEvaluator store istGetter

/-- The constructor `NewImageStreamImportEvaluator` of the sibling file: the
evaluator built from a lister. -/
def NewImageStreamImportEvaluator (store : L) : Evaluator Obj Err L C F :=
  Evaluator.imageStreamImportEvaluator store

namespace generic

/-- Modelled from the spec: `generic.ListResourceUsingListerFunc` is declared in the
generic quota library, outside src/; it binds a lister-factory function to a
resource identity, giving the list function of a count evaluator. -/
def ListResourceUsingListerFunc (l : Option F) (resource : GroupVersionResource) :
    ListFuncByNamespace F :=
  { l := l, resource := resource }

/-- Modelled from the spec: `generic.NewObjectCountEvaluator` is declared in the
generic quota library, outside src/; it is the external generic constructor
producing an evaluator bound to an identity, a lister and an alias name. -/
def NewObjectCountEvaluator (groupResource : GroupResource)
    (listFuncByNamespace : ListFuncByNamespace F) (aliasName : ResourceName) :
    Evaluator Obj Err L C F :=
  Evaluator.objectCountEvaluator groupResource listFuncByNamespace aliasName

/-- Modelled from the spec: the `GroupResource` method of the object-count evaluator
is declared in the generic quota library, outside src/; a count evaluator
claims the identity it was constructed with. -/
def objectCountGroupResource (groupResource : GroupResource) : GroupResource :=
  groupResource

/-- Modelled from the spec: the `Usage` method of the object-count evaluator is
declared in the generic quota library, outside src/; it reports usage of
exactly 1 under the alias name for an object, and does not fail. -/
def objectCountUsage (aliasName : ResourceName) (_object : Obj) :
    Except Err ResourceList :=
  Except.ok [(aliasName, 1)]

end generic

namespace Evaluator

/-- Method `GroupResource()`, dispatched on the dynamic type. The case of
`evaluatorForLegacyResource` is the method declared in registry.go, which
returns the field `LegacyGroupResource`. -/
def GroupResource (d : Collaborators Obj Err L C F) :
    Evaluator Obj Err L C F → ImageQuota.GroupResource
  | imageStreamTagEvaluator store istGetter => (d.imageStreamTag store istGetter).GroupResource
  | imageStreamImportEvaluator store => (d.imageStreamImport store).GroupResource
  | objectCountEvaluator gr _ _ => generic.objectCountGroupResource gr
  | evaluatorForLegacyResource _ LegacyGroupResource => LegacyGroupResource
  | other m => m.GroupResource

/-- Method `Handles`. `evaluatorForLegacyResource` declares no such method: the
call is promoted to the embedded `Evaluator` field. -/
def Handles (d : Collaborators Obj Err L C F) :
    Evaluator Obj Err L C F → Obj → Bool
  | imageStreamTagEvaluator store istGetter => (d.imageStreamTag store istGetter).Handles
  | imageStreamImportEvaluator store => (d.imageStreamImport store).Handles
  | objectCountEvaluator gr lf a => d.objectCountHandles gr lf a
  | evaluatorForLegacyResource e _ => Handles d e
  | other m => m.Handles

/-- Method `Usage`. `evaluatorForLegacyResource` declares no such method: the call
is promoted to the embedded `Evaluator` field. -/
def Usage (d : Collaborators Obj Err L C F) :
    Evaluator Obj Err L C F → Obj → Except Err ResourceList
  | imageStreamTagEvaluator store istGetter => (d.imageStreamTag store istGetter).Usage
  | imageStreamImportEvaluator store => (d.imageStreamImport store).Usage
  | objectCountEvaluator _ _ a => generic.objectCountUsage a
  | evaluatorForLegacyResource e _ => Usage d e
  | other m => m.Usage

/-- Method `Matches`. `evaluatorForLegacyResource` declares no such method: the
call is promoted to the embedded `Evaluator` field. -/
def Matches (d : Collaborators Obj Err L C F) :
    Evaluator Obj Err L C F → List ResourceName → Obj → Except Err Bool
  | imageStreamTagEvaluator store istGetter => (d.imageStreamTag store istGetter).Matches
  | imageStreamImportEvaluator store => (d.imageStreamImport store).Matches
  | objectCountEvaluator gr lf a => d.objectCountMatches gr lf a
  | evaluatorForLegacyResource e _ => Matches d e
  | other m => m.Matches

/-- Type test: the dynamic type is `*evaluatorForLegacyResource`. -/
def isLegacyWrapper : Evaluator Obj Err L C F → Bool
  | evaluatorForLegacyResource _ _ => true
  | _ => false

/-- Type test: the value was produced by `generic.NewObjectCountEvaluator`. -/
def isObjectCount : Evaluator Obj Err L C F → Bool
  | objectCountEvaluator _ _ _ => true
  | _ => false

/-- The evaluator that performs the computation: the delegate of a legacy
wrapper, the evaluator itself otherwise. -/
def delegate : Evaluator Obj Err L C F → Evaluator Obj Err L C F
  | evaluatorForLegacyResource e _ => e
  | e => e

/-- Type test: an image-stream-tag evaluator. -/
def isImageStreamTag : Evaluator Obj Err L C F → Bool
  | imageStreamTagEvaluator _ _ => true
  | _ => false

/-- Type test: an image-stream-import evaluator. -/
def isImageStreamImport : Evaluator Obj Err L C F → Bool
  | imageStreamImportEvaluator _ => true
  | _ => false

end Evaluator

/-! ## The alias table and the builders -/

/-- The package variable `legacyObjectCountAliases`: a map with one entry, kept
as the list of its (key, value) pairs. -/
def legacyObjectCountAliases : List (GroupVersionResource × ResourceName) :=
  [(imagev1.GroupVersion.WithResource "imagestreams", imagev1.ResourceImageStreams)]

/-- The sequences in which `range legacyObjectCountAliases` may yield the entries
of the map: every entry once, in any order. -/
def RangeOrder (order : List (GroupVersionResource × ResourceName)) : Prop :=
  order.Perm legacyObjectCountAliases

/-- The function `NewReplenishmentEvaluators`; `order` is the sequence in which the
`range` loop visits the alias table. -/
def NewReplenishmentEvaluators (order : List (GroupVersionResource × ResourceName))
    (f : Option F) (isInformer : ImageStreamInformer L) (imageClient : C) :
    List (Evaluator Obj Err L C F) :=
  let result : List (Evaluator Obj Err L C F) :=
    [ NewImageStreamTagEvaluator isInformer.Lister imageClient,
      NewImageStreamImportEvaluator isInformer.Lister ]
  order.foldl
    (fun result entry =>
      result ++ [generic.NewObjectCountEvaluator entry.1.GroupResource
        (generic.ListResourceUsingListerFunc f entry.1) entry.2])
    result

/-- The function `NewReplenishmentEvaluatorsForAdmission`; `order` is the sequence
in which the `range` loop visits the alias table. -/
def NewReplenishmentEvaluatorsForAdmission
    (order : List (GroupVersionResource × ResourceName))
    (isInformer : ImageStreamInformer L) (imageClient : C) :
    List (Evaluator Obj Err L C F) :=
  let result : List (Evaluator Obj Err L C F) :=
    [ NewImageStreamTagEvaluator isInformer.Lister imageClient,
      NewImageStreamImportEvaluator isInformer.Lister,
      Evaluator.evaluatorForLegacyResource
        (NewImageStreamTagEvaluator isInformer.Lister imageClient)
        (legacy.Resource "imagestreamtags"),
      Evaluator.evaluatorForLegacyResource
        (NewImageStreamImportEvaluator isInformer.Lister)
        (legacy.Resource "imagestreamimports") ]
  let result := order.foldl
    (fun result entry =>
      result ++ [generic.NewObjectCountEvaluator entry.1.GroupResource
        (generic.ListResourceUsingListerFunc none entry.1) entry.2])
    result
  result ++
    [generic.NewObjectCountEvaluator
      (legacy.Resource "imagestreams")
      (generic.ListResourceUsingListerFunc none
        (imagev1.GroupVersion.WithResource "imagestreams"))
      imagev1.ResourceImageStreams]

/-! ## Sample collaborators, for closed statements -/

/-- A concrete behaviour of the external evaluators: objects, listers, clients
and lister-factory functions are numbers, errors are strings. The lister 0
is one whose calls fail. -/
def sampleCollaborators : Collaborators Nat String Nat Nat Nat where
  imageStreamTag := fun store istGetter =>
    { GroupResource := { Group := "image.openshift.io", Resource := "imagestreamtags" }
      Handles := fun object => decide (object ≠ 0)
      Usage := fun object =>
        if store = 0 then Except.error "lister failed"
        else Except.ok [("openshift.io/imagestreams", Int.ofNat (object + istGetter))]
      Matches := fun names _ =>
        if store = 0 then Except.error "lister failed"
        else Except.ok (names.contains "openshift.io/imagestreams") }
  imageStreamImport := fun store =>
    { GroupResource := { Group := "image.openshift.io", Resource := "imagestreamimports" }
      Handles := fun _ => true
      Usage := fun object =>
        if store = 0 then Except.error "lister failed"
        else Except.ok [("openshift.io/imagestreams", Int.ofNat object)]
      Matches := fun names _ => Except.ok (names.contains "openshift.io/imagestreams") }
  objectCountHandles := fun _ _ _ _ => true
  objectCountMatches := fun _ _ aliasName names _ => Except.ok (names.contains aliasName)

/-- A concrete informer, whose lister is the number 7. -/
def sampleInformer : ImageStreamInformer Nat := { Lister := 7 }

/-! ## Auxiliary lemmas -/

/-- A loop that appends one element per visited entry appends the image of the
visited sequence. -/
theorem foldl_append_singleton {α β : Type} (g : α → β) (xs : List α) (init : List β) :
    xs.foldl (fun result entry => result ++ [g entry]) init = init ++ xs.map g := by
  induction xs generalizing init with
  | nil => simp
  | cons x xs ih => simp [ih]

/-- The alias table has one entry, so the range loop has one possible order. -/
theorem rangeOrder_eq {order : List (GroupVersionResource × ResourceName)}
    (h : RangeOrder order) : order = legacyObjectCountAliases := by
  unfold RangeOrder legacyObjectCountAliases at h
  unfold legacyObjectCountAliases
  exact List.Perm.eq_singleton h

/-- The table itself is one of the orders of the range loop. -/
theorem rangeOrder_table : RangeOrder legacyObjectCountAliases :=
  List.Perm.refl _

/-- The list built by the replenishment builder, for any visiting order. -/
theorem replenishment_eq_append (order : List (GroupVersionResource × ResourceName))
    (f : Option F) (isInformer : ImageStreamInformer L) (imageClient : C) :
    (NewReplenishmentEvaluators order f isInformer imageClient :
        List (Evaluator Obj Err L C F)) =
      [ NewImageStreamTagEvaluator isInformer.Lister imageClient,
        NewImageStreamImportEvaluator isInformer.Lister ] ++
      order.map (fun entry =>
        generic.NewObjectCountEvaluator entry.1.GroupResource
          (generic.ListResourceUsingListerFunc f entry.1) entry.2) := by
  unfold NewReplenishmentEvaluators
  exact foldl_append_singleton _ _ _

/-- The list built by the admission builder, for any visiting order. -/
theorem admission_eq_append (order : List (GroupVersionResource × ResourceName))
    (isInformer : ImageStreamInformer L) (imageClient : C) :
    (NewReplenishmentEvaluatorsForAdmission order isInformer imageClient :
        List (Evaluator Obj Err L C F)) =
      [ NewImageStreamTagEvaluator isInformer.Lister imageClient,
        NewImageStreamImportEvaluator isInformer.Lister,
        Evaluator.evaluatorForLegacyResource
          (NewImageStreamTagEvaluator isInformer.Lister imageClient)
          (legacy.Resource "imagestreamtags"),
        Evaluator.evaluatorForLegacyResource
          (NewImageStreamImportEvaluator isInformer.Lister)
          (legacy.Resource "imagestreamimports") ] ++
      order.map (fun entry =>
        generic.NewObjectCountEvaluator entry.1.GroupResource
          (generic.ListResourceUsingListerFunc none entry.1) entry.2) ++
      [generic.NewObjectCountEvaluator
        (legacy.Resource "imagestreams")
        (generic.ListResourceUsingListerFunc none
          (imagev1.GroupVersion.WithResource "imagestreams"))
        imagev1.ResourceImageStreams] := by
  unfold NewReplenishmentEvaluatorsForAdmission
  simp only [foldl_append_singleton]

/-- When the values of a function on a list are pairwise distinct, at most one
element of the list takes any given value. -/
theorem filter_claims_length_le_one {α β : Type} [DecidableEq β] (key : α → β)
    (xs : List α) (hn : (xs.map key).Nodup) (b : β) :
    (xs.filter (fun x => decide (key x = b))).length ≤ 1 := by
  induction xs with
  | nil => simp
  | cons x xs ih =>
    rw [List.map_cons, List.nodup_cons] at hn
    by_cases hx : key x = b
    · have hnone : xs.filter (fun y => decide (key y = b)) = [] := by
        rw [List.filter_eq_nil_iff]
        intro y hy hyb
        apply hn.1
        rw [hx]
        have := of_decide_eq_true hyb
        rw [← this]
        exact List.mem_map_of_mem key hy
      simp [List.filter_cons, hx, hnone]
    · simp only [List.filter_cons, hx, decide_False, Bool.false_eq_true, if_false]
      exact ih hn.2

/-! ## The legacy-identity wrapper -/

/-- C1: the legacy wrapper built from an evaluator e and an identity g returns g
from GroupResource(), for every e and g, whatever identity e itself reports. -/
theorem evaluatorForLegacyResource_groupResource (d : Collaborators Obj Err L C F)
    (e : Evaluator Obj Err L C F) (g : GroupResource) :
    Evaluator.GroupResource d (Evaluator.evaluatorForLegacyResource e g) = g := by
  rfl

/-- C2: the legacy wrapper gives the same result as its delegate for Handles, Usage
and Matches, on every object and every list of tracked resource names; in
particular an error of the delegate is the error of the wrapper. -/
theorem evaluatorForLegacyResource_delegates (d : Collaborators Obj Err L C F)
    (e : Evaluator Obj Err L C F) (g : GroupResource) :
    (∀ object, Evaluator.Handles d (Evaluator.evaluatorForLegacyResource e g) object
        = Evaluator.Handles d e object) ∧
    (∀ object, Evaluator.Usage d (Evaluator.evaluatorForLegacyResource e g) object
        = Evaluator.Usage d e object) ∧
    (∀ names object, Evaluator.Matches d (Evaluator.evaluatorForLegacyResource e g) names object
        = Evaluator.Matches d e names object) ∧
    (∀ object err, Evaluator.Usage d e object = Except.error err →
        Evaluator.Usage d (Evaluator.evaluatorForLegacyResource e g) object
          = Except.error err) ∧
    (∀ names object err, Evaluator.Matches d e names object = Except.error err →
        Evaluator.Matches d (Evaluator.evaluatorForLegacyResource e g) names object
          = Except.error err) := by
  refine ⟨fun _ => rfl, fun _ => rfl, fun _ _ => rfl, ?_, ?_⟩
  · intro object err h
    exact h
  · intro names object err h
    exact h

/-! ## The admission registry: specialised evaluators -/

/-- C3: in the admission registry each specialised evaluator has exactly two
entries, the evaluator itself and a legacy wrapper of the evaluator built from
the same lister and client, claiming the ungrouped identity; the two entries
report the same usage for every object. -/
theorem admission_specialised_entries (d : Collaborators Obj Err L C F)
    (order : List (GroupVersionResource × ResourceName)) (h : RangeOrder order)
    (isInformer : ImageStreamInformer L) (imageClient : C) :
    (NewReplenishmentEvaluatorsForAdmission order isInformer imageClient :
        List (Evaluator Obj Err L C F)).filter
        (fun e => e.delegate.isImageStreamTag)
      = [ NewImageStreamTagEvaluator isInformer.Lister imageClient,
          Evaluator.evaluatorForLegacyResource
            (NewImageStreamTagEvaluator isInformer.Lister imageClient)
            { Group := "", Resource := "imagestreamtags" } ] ∧
    (NewReplenishmentEvaluatorsForAdmission order isInformer imageClient :
        List (Evaluator Obj Err L C F)).filter
        (fun e => e.delegate.isImageStreamImport)
      = [ NewImageStreamImportEvaluator isInformer.Lister,
          Evaluator.evaluatorForLegacyResource
            (NewImageStreamImportEvaluator isInformer.Lister)
            { Group := "", Resource := "imagestreamimports" } ] ∧
    (∀ object,
      Evaluator.Usage d (Evaluator.evaluatorForLegacyResource
          (NewImageStreamTagEvaluator isInformer.Lister imageClient)
          { Group := "", Resource := "imagestreamtags" }) object
        = Evaluator.Usage d (NewImageStreamTagEvaluator isInformer.Lister imageClient) object) ∧
    (∀ object,
      Evaluator.Usage d (Evaluator.evaluatorForLegacyResource
          (NewImageStreamImportEvaluator isInformer.Lister)
          { Group := "", Resource := "imagestreamimports" }) object
        = Evaluator.Usage d (NewImageStreamImportEvaluator isInformer.Lister) object) := by
  have ho := rangeOrder_eq h
  subst ho
  refine ⟨rfl, rfl, fun _ => rfl, fun _ => rfl⟩

/-- Witness of C3 at the sample informer and client. -/
theorem admission_specialised_entries_witness :
    RangeOrder legacyObjectCountAliases ∧
    (NewReplenishmentEvaluatorsForAdmission legacyObjectCountAliases sampleInformer 3 :
        List (Evaluator Nat String Nat Nat Nat)).filter
        (fun e => e.delegate.isImageStreamTag)
      = [ NewImageStreamTagEvaluator 7 3,
          Evaluator.evaluatorForLegacyResource (NewImageStreamTagEvaluator 7 3)
            { Group := "", Resource := "imagestreamtags" } ] :=
  ⟨rangeOrder_table,
    (admission_specialised_entries sampleCollaborators legacyObjectCountAliases
      rangeOrder_table sampleInformer 3).1⟩

/-! ## Count evaluators of the alias table -/

/-- C4: for every entry of the alias table, both registries contain a count
evaluator constructed with the current group-resource of the entry and its
alias, and the admission registry also contains one constructed with the
ungrouped form of the same resource and the same alias. -/
theorem alias_entries_have_count_evaluators
    (order : List (GroupVersionResource × ResourceName)) (h : RangeOrder order)
    (f : Option F) (isInformer : ImageStreamInformer L) (imageClient : C) :
    ∀ entry ∈ legacyObjectCountAliases,
      (∃ lf, generic.NewObjectCountEvaluator entry.1.GroupResource lf entry.2 ∈
        (NewReplenishmentEvaluators order f isInformer imageClient :
          List (Evaluator Obj Err L C F))) ∧
      (∃ lf, generic.NewObjectCountEvaluator entry.1.GroupResource lf entry.2 ∈
        (NewReplenishmentEvaluatorsForAdmission order isInformer imageClient :
          List (Evaluator Obj Err L C F))) ∧
      (∃ lf, generic.NewObjectCountEvaluator
          { Group := "", Resource := entry.1.Resource } lf entry.2 ∈
        (NewReplenishmentEvaluatorsForAdmission order isInformer imageClient :
          List (Evaluator Obj Err L C F))) := by
  have ho := rangeOrder_eq h
  subst ho
  intro entry hentry
  simp only [legacyObjectCountAliases, List.mem_singleton] at hentry
  subst hentry
  refine ⟨⟨generic.ListResourceUsingListerFunc f
      (imagev1.GroupVersion.WithResource "imagestreams"), ?_⟩,
    ⟨generic.ListResourceUsingListerFunc none
      (imagev1.GroupVersion.WithResource "imagestreams"), ?_⟩,
    ⟨generic.ListResourceUsingListerFunc none
      (imagev1.GroupVersion.WithResource "imagestreams"), ?_⟩⟩
  · simp [NewReplenishmentEvaluators, legacyObjectCountAliases]
  · simp [NewReplenishmentEvaluatorsForAdmission, legacyObjectCountAliases]
  · simp [NewReplenishmentEvaluatorsForAdmission, legacyObjectCountAliases,
      legacy.Resource, imagev1.GroupVersion, GroupVersion.WithResource]

/-- Witness of C4 at the sample informer, a lister-factory function and a client. -/
theorem alias_entries_have_count_evaluators_witness :
    RangeOrder legacyObjectCountAliases ∧
    ∀ entry ∈ legacyObjectCountAliases,
      (∃ lf, generic.NewObjectCountEvaluator entry.1.GroupResource lf entry.2 ∈
        (NewReplenishmentEvaluators legacyObjectCountAliases (some 5) sampleInformer 3 :
          List (Evaluator Nat String Nat Nat Nat))) ∧
      (∃ lf, generic.NewObjectCountEvaluator entry.1.GroupResource lf entry.2 ∈
        (NewReplenishmentEvaluatorsForAdmission legacyObjectCountAliases sampleInformer 3 :
          List (Evaluator Nat String Nat Nat Nat))) ∧
      (∃ lf, generic.NewObjectCountEvaluator
          { Group := "", Resource := entry.1.Resource } lf entry.2 ∈
        (NewReplenishmentEvaluatorsForAdmission legacyObjectCountAliases sampleInformer 3 :
          List (Evaluator Nat String Nat Nat Nat))) :=
  ⟨rangeOrder_table,
    alias_entries_have_count_evaluators legacyObjectCountAliases rangeOrder_table
      (some 5) sampleInformer 3⟩

/-! ## The replenishment registry -/

/-- C5: the replenishment registry is the two specialised evaluators followed by
one count evaluator per alias-table entry, constructed with the current
identity of the entry; none of its elements is a legacy wrapper and none of
its count evaluators is constructed with an ungrouped identity. -/
theorem replenishment_has_no_legacy_form
    (order : List (GroupVersionResource × ResourceName)) (h : RangeOrder order)
    (f : Option F) (isInformer : ImageStreamInformer L) (imageClient : C) :
    (NewReplenishmentEvaluators order f isInformer imageClient :
        List (Evaluator Obj Err L C F))
      = [ NewImageStreamTagEvaluator isInformer.Lister imageClient,
          NewImageStreamImportEvaluator isInformer.Lister ] ++
        legacyObjectCountAliases.map (fun entry =>
          generic.NewObjectCountEvaluator entry.1.GroupResource
            (generic.ListResourceUsingListerFunc f entry.1) entry.2) ∧
    (∀ e ∈ (NewReplenishmentEvaluators order f isInformer imageClient :
        List (Evaluator Obj Err L C F)), e.isLegacyWrapper = false) ∧
    (∀ gr lf a, Evaluator.objectCountEvaluator gr lf a ∈
        (NewReplenishmentEvaluators order f isInformer imageClient :
          List (Evaluator Obj Err L C F)) → gr.Group ≠ "") := by
  have ho := rangeOrder_eq h
  subst ho
  rw [replenishment_eq_append]
  refine ⟨rfl, ?_, ?_⟩
  · intro e he
    simp only [legacyObjectCountAliases, List.map_cons, List.map_nil, List.cons_append,
      List.nil_append, List.mem_cons, List.mem_singleton, List.not_mem_nil, or_false] at he
    rcases he with rfl | rfl | rfl <;> rfl
  · intro gr lf a he
    simp only [legacyObjectCountAliases, List.map_cons, List.map_nil, List.cons_append,
      List.nil_append, List.mem_cons, List.mem_singleton, List.not_mem_nil, or_false,
      NewImageStreamTagEvaluator, NewImageStreamImportEvaluator,
      generic.NewObjectCountEvaluator, false_or, reduceCtorEq,
      Evaluator.objectCountEvaluator.injEq] at he
    rw [he.1]
    decide

/-- Witness of C5 at the sample informer, a lister-factory function and a client. -/
theorem replenishment_has_no_legacy_form_witness :
    RangeOrder legacyObjectCountAliases ∧
    ∀ e ∈ (NewReplenishmentEvaluators legacyObjectCountAliases (some 5) sampleInformer 3 :
        List (Evaluator Nat String Nat Nat Nat)), e.isLegacyWrapper = false :=
  ⟨rangeOrder_table,
    (replenishment_has_no_legacy_form legacyObjectCountAliases rangeOrder_table
      (some 5) sampleInformer 3).2.1⟩

/-! ## List functions of the count evaluators -/

/-- C6, as stated, fails for the admission builder: its registry holds a count
evaluator for the image-stream entry whose list function was built from no
lister-factory function at all (Go's nil), so it is not the list function
obtained from any lister-factory function for the entry. -/
theorem admission_count_evaluator_has_no_lister :
    ¬ (∀ gr lf a, Evaluator.objectCountEvaluator gr lf a ∈
          (NewReplenishmentEvaluatorsForAdmission legacyObjectCountAliases sampleInformer 3 :
            List (Evaluator Nat String Nat Nat Nat)) →
        ∃ entry ∈ legacyObjectCountAliases, ∃ l : Nat,
          lf = generic.ListResourceUsingListerFunc (some l) entry.1) := by
  intro hall
  obtain ⟨entry, _, l, hl⟩ := hall
    { Group := "image.openshift.io", Resource := "imagestreams" }
    { l := none, resource := imagev1.GroupVersion.WithResource "imagestreams" }
    "openshift.io/imagestreams"
    (by simp [NewReplenishmentEvaluatorsForAdmission, legacyObjectCountAliases,
          generic.NewObjectCountEvaluator, generic.ListResourceUsingListerFunc,
          GroupVersionResource.GroupResource, GroupVersion.WithResource,
          imagev1.GroupVersion, imagev1.ResourceImageStreams])
  simp [generic.ListResourceUsingListerFunc] at hl

/-- C6, amended: in the replenishment registry the count evaluators are exactly
those of the alias-table entries, each with the list function built from the
caller's lister-factory function f and the entry's group-version-resource; in
the admission registry the count evaluators (current and legacy identity) have
the list function built for the entry's group-version-resource from the nil
lister-factory function. -/
theorem count_evaluator_list_functions
    (order : List (GroupVersionResource × ResourceName)) (h : RangeOrder order)
    (f : Option F) (isInformer : ImageStreamInformer L) (imageClient : C) :
    (∀ entry ∈ legacyObjectCountAliases,
      Evaluator.objectCountEvaluator entry.1.GroupResource
          (generic.ListResourceUsingListerFunc f entry.1) entry.2 ∈
        (NewReplenishmentEvaluators order f isInformer imageClient :
          List (Evaluator Obj Err L C F))) ∧
    (∀ gr lf a, Evaluator.objectCountEvaluator gr lf a ∈
        (NewReplenishmentEvaluators order f isInformer imageClient :
          List (Evaluator Obj Err L C F)) →
      ∃ entry ∈ legacyObjectCountAliases,
        gr = entry.1.GroupResource ∧ a = entry.2 ∧
        lf = generic.ListResourceUsingListerFunc f entry.1) ∧
    (∀ entry ∈ legacyObjectCountAliases,
      Evaluator.objectCountEvaluator entry.1.GroupResource
          (generic.ListResourceUsingListerFunc none entry.1) entry.2 ∈
        (NewReplenishmentEvaluatorsForAdmission order isInformer imageClient :
          List (Evaluator Obj Err L C F)) ∧
      Evaluator.objectCountEvaluator { Group := "", Resource := entry.1.Resource }
          (generic.ListResourceUsingListerFunc none entry.1) entry.2 ∈
        (NewReplenishmentEvaluatorsForAdmission order isInformer imageClient :
          List (Evaluator Obj Err L C F))) ∧
    (∀ gr lf a, Evaluator.objectCountEvaluator gr lf a ∈
        (NewReplenishmentEvaluatorsForAdmission order isInformer imageClient :
          List (Evaluator Obj Err L C F)) →
      ∃ entry ∈ legacyObjectCountAliases,
        (gr = entry.1.GroupResource ∨ gr = { Group := "", Resource := entry.1.Resource }) ∧
        a = entry.2 ∧
        lf = generic.ListResourceUsingListerFunc none entry.1) := by
  have ho := rangeOrder_eq h
  subst ho
  refine ⟨?_, ?_, ?_, ?_⟩
  · intro entry hentry
    simp only [legacyObjectCountAliases, List.mem_singleton] at hentry
    subst hentry
    simp [NewReplenishmentEvaluators, legacyObjectCountAliases,
      generic.NewObjectCountEvaluator]
  · intro gr lf a he
    simp only [NewReplenishmentEvaluators, legacyObjectCountAliases, List.foldl_cons,
      List.foldl_nil, List.cons_append, List.nil_append, List.mem_cons, List.mem_singleton,
      List.not_mem_nil, or_false, NewImageStreamTagEvaluator, NewImageStreamImportEvaluator,
      generic.NewObjectCountEvaluator, false_or, reduceCtorEq,
      Evaluator.objectCountEvaluator.injEq] at he
    obtain ⟨h1, h2, h3⟩ := he
    subst h1 h2 h3
    exact ⟨_, List.mem_singleton.mpr rfl, rfl, rfl, rfl⟩
  · intro entry hentry
    simp only [legacyObjectCountAliases, List.mem_singleton] at hentry
    subst hentry
    simp [NewReplenishmentEvaluatorsForAdmission, legacyObjectCountAliases,
      generic.NewObjectCountEvaluator, legacy.Resource, imagev1.GroupVersion,
      GroupVersion.WithResource]
  · intro gr lf a he
    simp only [NewReplenishmentEvaluatorsForAdmission, legacyObjectCountAliases,
      List.foldl_cons, List.foldl_nil, List.cons_append, List.nil_append, List.mem_cons,
      List.mem_singleton, List.not_mem_nil, or_false, NewImageStreamTagEvaluator,
      NewImageStreamImportEvaluator, generic.NewObjectCountEvaluator, false_or,
      reduceCtorEq, Evaluator.objectCountEvaluator.injEq] at he
    rcases he with ⟨h1, h2, h3⟩ | ⟨h1, h2, h3⟩
    · subst h1 h2 h3
      exact ⟨_, List.mem_singleton.mpr rfl, Or.inl rfl, rfl, rfl⟩
    · subst h1 h2 h3
      exact ⟨_, List.mem_singleton.mpr rfl, Or.inr rfl, rfl, rfl⟩

/-- Witness of the amended C6 at the sample informer, a lister-factory function and
a client. -/
theorem count_evaluator_list_functions_witness :
    RangeOrder legacyObjectCountAliases ∧
    ∀ entry ∈ legacyObjectCountAliases,
      Evaluator.objectCountEvaluator entry.1.GroupResource
          (generic.ListResourceUsingListerFunc (some 5) entry.1) entry.2 ∈
        (NewReplenishmentEvaluators legacyObjectCountAliases (some 5) sampleInformer 3 :
          List (Evaluator Nat String Nat Nat Nat)) :=
  ⟨rangeOrder_table,
    (count_evaluator_list_functions legacyObjectCountAliases rangeOrder_table
      (some 5) sampleInformer 3).1⟩

/-! ## Scenarios for the image-stream alias -/

/-- C7: the admission registry contains exactly two count evaluators, the first
claiming the current identity of image streams and the second the ungrouped
one, and each reports the usage of 1 under "openshift.io/imagestreams" for
every object. -/
theorem admission_count_evaluators_usage (d : Collaborators Obj Err L C F)
    (order : List (GroupVersionResource × ResourceName)) (h : RangeOrder order)
    (isInformer : ImageStreamInformer L) (imageClient : C) :
    ∃ current old : Evaluator Obj Err L C F,
      (NewReplenishmentEvaluatorsForAdmission order isInformer imageClient).filter
          Evaluator.isObjectCount = [current, old] ∧
      Evaluator.GroupResource d current
        = { Group := "image.openshift.io", Resource := "imagestreams" } ∧
      Evaluator.GroupResource d old = { Group := "", Resource := "imagestreams" } ∧
      (∀ object, Evaluator.Usage d current object
        = Except.ok [("openshift.io/imagestreams", 1)]) ∧
      (∀ object, Evaluator.Usage d old object
        = Except.ok [("openshift.io/imagestreams", 1)]) := by
  have ho := rangeOrder_eq h
  subst ho
  exact ⟨_, _, rfl, rfl, rfl, fun _ => rfl, fun _ => rfl⟩

/-- Witness of C7 at the sample collaborators, informer and client. -/
theorem admission_count_evaluators_usage_witness :
    RangeOrder legacyObjectCountAliases ∧
    ∃ current old : Evaluator Nat String Nat Nat Nat,
      (NewReplenishmentEvaluatorsForAdmission legacyObjectCountAliases sampleInformer 3).filter
          Evaluator.isObjectCount = [current, old] ∧
      Evaluator.GroupResource sampleCollaborators current
        = { Group := "image.openshift.io", Resource := "imagestreams" } ∧
      Evaluator.GroupResource sampleCollaborators old
        = { Group := "", Resource := "imagestreams" } ∧
      (∀ object, Evaluator.Usage sampleCollaborators current object
        = Except.ok [("openshift.io/imagestreams", 1)]) ∧
      (∀ object, Evaluator.Usage sampleCollaborators old object
        = Except.ok [("openshift.io/imagestreams", 1)]) :=
  ⟨rangeOrder_table,
    admission_count_evaluators_usage sampleCollaborators legacyObjectCountAliases
      rangeOrder_table sampleInformer 3⟩

/-- C8: the replenishment registry has exactly three elements, of which exactly
one is a count evaluator; it is constructed with the group-qualified identity
of image streams, which is not the ungrouped one. -/
theorem replenishment_single_count_evaluator
    (order : List (GroupVersionResource × ResourceName)) (h : RangeOrder order)
    (f : Option F) (isInformer : ImageStreamInformer L) (imageClient : C) :
    (NewReplenishmentEvaluators order f isInformer imageClient :
        List (Evaluator Obj Err L C F)).length = 3 ∧
    (NewReplenishmentEvaluators order f isInformer imageClient :
        List (Evaluator Obj Err L C F)).filter Evaluator.isObjectCount
      = [ generic.NewObjectCountEvaluator
            { Group := "image.openshift.io", Resource := "imagestreams" }
            (generic.ListResourceUsingListerFunc f
              { Group := "image.openshift.io", Version := "v1", Resource := "imagestreams" })
            "openshift.io/imagestreams" ] ∧
    (∀ gr lf a, Evaluator.objectCountEvaluator gr lf a ∈
        (NewReplenishmentEvaluators order f isInformer imageClient :
          List (Evaluator Obj Err L C F)) →
      gr = { Group := "image.openshift.io", Resource := "imagestreams" } ∧
      gr ≠ legacy.Resource "imagestreams") := by
  have ho := rangeOrder_eq h
  subst ho
  refine ⟨rfl, rfl, ?_⟩
  intro gr lf a he
  simp only [NewReplenishmentEvaluators, legacyObjectCountAliases, List.foldl_cons,
    List.foldl_nil, List.cons_append, List.nil_append, List.mem_cons, List.mem_singleton,
    List.not_mem_nil, or_false, NewImageStreamTagEvaluator, NewImageStreamImportEvaluator,
    generic.NewObjectCountEvaluator, false_or, reduceCtorEq,
    Evaluator.objectCountEvaluator.injEq] at he
  rw [he.1]
  exact ⟨rfl, by decide⟩

/-- Witness of C8 at the sample informer, a lister-factory function and a client. -/
theorem replenishment_single_count_evaluator_witness :
    RangeOrder legacyObjectCountAliases ∧
    (NewReplenishmentEvaluators legacyObjectCountAliases (some 5) sampleInformer 3 :
        List (Evaluator Nat String Nat Nat Nat)).length = 3 :=
  ⟨rangeOrder_table,
    (replenishment_single_count_evaluator legacyObjectCountAliases rangeOrder_table
      (some 5) sampleInformer 3).1⟩

/-! ## Determinism -/

/-- The replenishment builder appends in the order of the visit: on two distinct
entries visited in the two possible orders it returns different sequences. The
order of the result is therefore fixed only by the size of the alias table. -/
theorem replenishment_follows_visit_order (a b : GroupVersionResource × ResourceName)
    (hab : a ≠ b) (f : Option F) (isInformer : ImageStreamInformer L) (imageClient : C) :
    (NewReplenishmentEvaluators [a, b] f isInformer imageClient :
        List (Evaluator Obj Err L C F))
      ≠ NewReplenishmentEvaluators [b, a] f isInformer imageClient := by
  intro heq
  simp only [NewReplenishmentEvaluators, List.foldl_cons, List.foldl_nil, List.cons_append,
    List.nil_append, generic.NewObjectCountEvaluator, generic.ListResourceUsingListerFunc,
    List.cons.injEq, Evaluator.objectCountEvaluator.injEq, ListFuncByNamespace.mk.injEq,
    true_and, and_true] at heq
  exact hab (Prod.ext heq.1.2.1 heq.1.2.2)

/-- C9: the alias table has a single entry, so in whatever order the range loop
visits it the replenishment builder returns the same three evaluators in the
same order and the admission builder the same six evaluators in the same order;
two calls with the same lister function, informer and client return the same
sequence. -/
theorem builders_deterministic
    (order₁ order₂ : List (GroupVersionResource × ResourceName))
    (h₁ : RangeOrder order₁) (h₂ : RangeOrder order₂)
    (f : Option F) (isInformer : ImageStreamInformer L) (imageClient : C) :
    (NewReplenishmentEvaluators order₁ f isInformer imageClient :
        List (Evaluator Obj Err L C F))
      = [ Evaluator.imageStreamTagEvaluator isInformer.Lister imageClient,
          Evaluator.imageStreamImportEvaluator isInformer.Lister,
          Evaluator.objectCountEvaluator
            { Group := "image.openshift.io", Resource := "imagestreams" }
            { l := f,
              resource :=
                { Group := "image.openshift.io", Version := "v1", Resource := "imagestreams" } }
            "openshift.io/imagestreams" ] ∧
    (NewReplenishmentEvaluators order₂ f isInformer imageClient :
        List (Evaluator Obj Err L C F))
      = NewReplenishmentEvaluators order₁ f isInformer imageClient ∧
    (NewReplenishmentEvaluatorsForAdmission order₁ isInformer imageClient :
        List (Evaluator Obj Err L C F))
      = [ Evaluator.imageStreamTagEvaluator isInformer.Lister imageClient,
          Evaluator.imageStreamImportEvaluator isInformer.Lister,
          Evaluator.evaluatorForLegacyResource
            (Evaluator.imageStreamTagEvaluator isInformer.Lister imageClient)
            { Group := "", Resource := "imagestreamtags" },
          Evaluator.evaluatorForLegacyResource
            (Evaluator.imageStreamImportEvaluator isInformer.Lister)
            { Group := "", Resource := "imagestreamimports" },
          Evaluator.objectCountEvaluator
            { Group := "image.openshift.io", Resource := "imagestreams" }
            { l := none,
              resource :=
                { Group := "image.openshift.io", Version := "v1", Resource := "imagestreams" } }
            "openshift.io/imagestreams",
          Evaluator.objectCountEvaluator
            { Group := "", Resource := "imagestreams" }
            { l := none,
              resource :=
                { Group := "image.openshift.io", Version := "v1", Resource := "imagestreams" } }
            "openshift.io/imagestreams" ] ∧
    (NewReplenishmentEvaluatorsForAdmission order₂ isInformer imageClient :
        List (Evaluator Obj Err L C F))
      = NewReplenishmentEvaluatorsForAdmission order₁ isInformer imageClient := by
  have e₁ := rangeOrder_eq h₁
  have e₂ := rangeOrder_eq h₂
  subst e₁
  refine ⟨?_, ?_, ?_, ?_⟩
  · rw [replenishment_eq_append]
    rfl
  · rw [e₂]
  · rw [admission_eq_append]
    rfl
  · rw [e₂]

/-- Witness of C9 at the sample informer, a lister-factory function and a client:
the sequences that the two builders return there. -/
theorem builders_deterministic_witness :
    RangeOrder legacyObjectCountAliases ∧
    (NewReplenishmentEvaluators legacyObjectCountAliases (some 5) sampleInformer 3 :
        List (Evaluator Nat String Nat Nat Nat))
      = [ Evaluator.imageStreamTagEvaluator 7 3,
          Evaluator.imageStreamImportEvaluator 7,
          Evaluator.objectCountEvaluator
            { Group := "image.openshift.io", Resource := "imagestreams" }
            { l := some 5,
              resource :=
                { Group := "image.openshift.io", Version := "v1", Resource := "imagestreams" } }
            "openshift.io/imagestreams" ] ∧
    (NewReplenishmentEvaluatorsForAdmission legacyObjectCountAliases sampleInformer 3 :
        List (Evaluator Nat String Nat Nat Nat))
      = [ Evaluator.imageStreamTagEvaluator 7 3,
          Evaluator.imageStreamImportEvaluator 7,
          Evaluator.evaluatorForLegacyResource (Evaluator.imageStreamTagEvaluator 7 3)
            { Group := "", Resource := "imagestreamtags" },
          Evaluator.evaluatorForLegacyResource (Evaluator.imageStreamImportEvaluator 7)
            { Group := "", Resource := "imagestreamimports" },
          Evaluator.objectCountEvaluator
            { Group := "image.openshift.io", Resource := "imagestreams" }
            { l := none,
              resource :=
                { Group := "image.openshift.io", Version := "v1", Resource := "imagestreams" } }
            "openshift.io/imagestreams",
          Evaluator.objectCountEvaluator
            { Group := "", Resource := "imagestreams" }
            { l := none,
              resource :=
                { Group := "image.openshift.io", Version := "v1", Resource := "imagestreams" } }
            "openshift.io/imagestreams" ] :=
  ⟨rangeOrder_table,
    (builders_deterministic legacyObjectCountAliases legacyObjectCountAliases
      rangeOrder_table rangeOrder_table (some 5) sampleInformer 3).1,
    (builders_deterministic legacyObjectCountAliases legacyObjectCountAliases
      rangeOrder_table rangeOrder_table (some 5) sampleInformer 3).2.2.1⟩

/-! ## Distinct identities -/

/-- C10: when the two specialised evaluators report the group-qualified
identities imagestreamtags and imagestreamimports, the admission registry has
six entries claiming six pairwise distinct identities and the replenishment
registry three entries claiming three pairwise distinct identities, so that at
most one entry of a registry claims any given identity. -/
theorem registry_identities_distinct (d : Collaborators Obj Err L C F)
    (hTag : ∀ store istGetter, (d.imageStreamTag store istGetter).GroupResource
      = { Group := "image.openshift.io", Resource := "imagestreamtags" })
    (hImport : ∀ store, (d.imageStreamImport store).GroupResource
      = { Group := "image.openshift.io", Resource := "imagestreamimports" })
    (order : List (GroupVersionResource × ResourceName)) (h : RangeOrder order)
    (f : Option F) (isInformer : ImageStreamInformer L) (imageClient : C) :
    (NewReplenishmentEvaluatorsForAdmission order isInformer imageClient).map
        (Evaluator.GroupResource d)
      = [ { Group := "image.openshift.io", Resource := "imagestreamtags" },
          { Group := "image.openshift.io", Resource := "imagestreamimports" },
          { Group := "", Resource := "imagestreamtags" },
          { Group := "", Resource := "imagestreamimports" },
          { Group := "image.openshift.io", Resource := "imagestreams" },
          { Group := "", Resource := "imagestreams" } ] ∧
    ((NewReplenishmentEvaluatorsForAdmission order isInformer imageClient).map
        (Evaluator.GroupResource d)).Nodup ∧
    (NewReplenishmentEvaluators order f isInformer imageClient).map
        (Evaluator.GroupResource d)
      = [ { Group := "image.openshift.io", Resource := "imagestreamtags" },
          { Group := "image.openshift.io", Resource := "imagestreamimports" },
          { Group := "image.openshift.io", Resource := "imagestreams" } ] ∧
    ((NewReplenishmentEvaluators order f isInformer imageClient).map
        (Evaluator.GroupResource d)).Nodup ∧
    (∀ g, ((NewReplenishmentEvaluatorsForAdmission order isInformer imageClient).filter
        (fun e => decide (Evaluator.GroupResource d e = g))).length ≤ 1) ∧
    (∀ g, ((NewReplenishmentEvaluators order f isInformer imageClient).filter
        (fun e => decide (Evaluator.GroupResource d e = g))).length ≤ 1) := by
  have ho := rangeOrder_eq h
  subst ho
  have hA : (NewReplenishmentEvaluatorsForAdmission legacyObjectCountAliases isInformer
        imageClient).map (Evaluator.GroupResource d)
      = [ { Group := "image.openshift.io", Resource := "imagestreamtags" },
          { Group := "image.openshift.io", Resource := "imagestreamimports" },
          { Group := "", Resource := "imagestreamtags" },
          { Group := "", Resource := "imagestreamimports" },
          { Group := "image.openshift.io", Resource := "imagestreams" },
          { Group := "", Resource := "imagestreams" } ] := by
    simp only [NewReplenishmentEvaluatorsForAdmission, legacyObjectCountAliases,
      List.foldl_cons, List.foldl_nil, List.cons_append, List.nil_append, List.map_cons,
      List.map_nil, NewImageStreamTagEvaluator, NewImageStreamImportEvaluator,
      generic.NewObjectCountEvaluator, Evaluator.GroupResource, hTag, hImport]
    rfl
  have hR : (NewReplenishmentEvaluators legacyObjectCountAliases f isInformer
        imageClient).map (Evaluator.GroupResource d)
      = [ { Group := "image.openshift.io", Resource := "imagestreamtags" },
          { Group := "image.openshift.io", Resource := "imagestreamimports" },
          { Group := "image.openshift.io", Resource := "imagestreams" } ] := by
    simp only [NewReplenishmentEvaluators, legacyObjectCountAliases,
      List.foldl_cons, List.foldl_nil, List.cons_append, List.nil_append, List.map_cons,
      List.map_nil, NewImageStreamTagEvaluator, NewImageStreamImportEvaluator,
      generic.NewObjectCountEvaluator, Evaluator.GroupResource, hTag, hImport]
    rfl
  have hAn : ((NewReplenishmentEvaluatorsForAdmission legacyObjectCountAliases isInformer
        imageClient).map (Evaluator.GroupResource d)).Nodup := by
    rw [hA]; decide
  have hRn : ((NewReplenishmentEvaluators legacyObjectCountAliases f isInformer
        imageClient).map (Evaluator.GroupResource d)).Nodup := by
    rw [hR]; decide
  refine ⟨hA, hAn, hR, hRn, ?_, ?_⟩
  · intro g
    exact filter_claims_length_le_one _ _ hAn g
  · intro g
    exact filter_claims_length_le_one _ _ hRn g

/-- Witness of C10 at the sample collaborators, whose specialised evaluators
report the group-qualified identities. -/
theorem registry_identities_distinct_witness :
    (∀ store istGetter, (sampleCollaborators.imageStreamTag store istGetter).GroupResource
      = { Group := "image.openshift.io", Resource := "imagestreamtags" }) ∧
    (∀ store, (sampleCollaborators.imageStreamImport store).GroupResource
      = { Group := "image.openshift.io", Resource := "imagestreamimports" }) ∧
    RangeOrder legacyObjectCountAliases ∧
    ((NewReplenishmentEvaluatorsForAdmission legacyObjectCountAliases sampleInformer 3).map
        (Evaluator.GroupResource sampleCollaborators)).Nodup ∧
    ((NewReplenishmentEvaluators legacyObjectCountAliases (some 5) sampleInformer 3).map
        (Evaluator.GroupResource sampleCollaborators)).Nodup :=
  ⟨fun _ _ => rfl, fun _ => rfl, rangeOrder_table,
    (registry_identities_distinct sampleCollaborators (fun _ _ => rfl) (fun _ => rfl)
      legacyObjectCountAliases rangeOrder_table (some 5) sampleInformer 3).2.1,
    (registry_identities_distinct sampleCollaborators (fun _ _ => rfl) (fun _ => rfl)
      legacyObjectCountAliases rangeOrder_table (some 5) sampleInformer 3).2.2.2.1⟩

end ImageQuota
